import Mathlib

/-!
Verification of the rotated-NMS TensorRT plugin `NMSRotatePlugin`
(`src/csrc/plugins/NMSRotatePlugin.h` of kevinjoseph1995/retinanet-examples).

The plugin's scalar state is embedded shallowly:
* `_nms_thresh : float` is kept as its IEEE-754 single-precision bit pattern
  (a `Nat < 2^32`); serialization copies bits, and the only numeric operation
  the header performs on it is the comparison `> 0`, decoded by `floatGtZero`.
* `_detections_per_im : int` is an `Int` (32-bit two's complement on the wire).
* `_count : size_t` is a `Nat` (64-bit on the wire).
* `mutable int size = -1` (the cached workspace size) is an `Int`.

Assertions (`assert(...)`) are modelled by `Option`: a constructor or
configuration call returns `none` exactly when one of its assertions fails.

The CUDA kernel `cuda::nms_rotate` (file `src/csrc/cuda/nms_iou.h`) is not part
of the visible sources; the workspace-sizing path and the suppression pass are
modelled from the specification where a claim needs them (see
`required_workspace`, `suppressGo`).
-/

namespace RetinanetNMSRotate

/-- The TensorRT tensor data types the plugin negotiates over. -/
inductive DataType where
  | kFLOAT
  | kHALF
  | kINT8
  | kINT32
deriving DecidableEq, Repr

/-- The TensorRT tensor memory layouts the plugin negotiates over. -/
inductive PluginFormat where
  | kLINEAR
  | kCHW2
  | kHWC8
deriving DecidableEq, Repr

/-- `nvinfer1::Dims3`: the three dimension entries the plugin reads/writes
(the header only ever touches `d[0]`, `d[1]`, `d[2]`). -/
structure Dims3 where
  d0 : Int
  d1 : Int
  d2 : Int
deriving DecidableEq, Repr

/-- IEEE-754 single precision `x > 0.0f`, decided on the bit pattern:
positive sign, not `+0.0`, and not a NaN (an exponent of 255 with a nonzero
mantissa compares false against everything). -/
def floatGtZero (bits : Nat) : Bool :=
  let sign := bits / 2 ^ 31
  let rest := bits % 2 ^ 31
  let e := rest / 2 ^ 23
  let mant := rest % 2 ^ 23
  sign == 0 && rest != 0 && !(e == 255 && mant != 0)

/-- The plugin's scalar state (fields of `class NMSRotatePlugin`). -/
structure NMSRotatePlugin where
  nms_thresh : Nat
  detections_per_im : Int
  count : Nat
  size : Int
deriving DecidableEq, Repr

/-! ### Byte-level serialization

`write`/`read` in the header copy `sizeof(T)` raw bytes per field; on the
x86-64 target `sizeof(float) = sizeof(int) = 4` and `sizeof(size_t) = 8`,
little-endian. -/

/-- `w`-byte little-endian encoding of a value. -/
def toBytes : Nat → Nat → List Nat
  | 0, _ => []
  | w + 1, v => v % 256 :: toBytes w (v / 256)

/-- Little-endian decoding of a byte list. -/
def fromBytes : List Nat → Nat
  | [] => 0
  | b :: rest => b % 256 + 256 * fromBytes rest

/-- Bit pattern of a C `int` value (32-bit two's complement). -/
def bitsOfInt32 (d : Int) : Nat := (d % 2 ^ 32).toNat

/-- C `int` value of a 32-bit pattern (two's complement). -/
def int32OfBits (n : Nat) : Int :=
  if n % 2 ^ 32 < 2 ^ 31 then ((n % 2 ^ 32 : Nat) : Int)
  else ((n % 2 ^ 32 : Nat) : Int) - 2 ^ 32

/-- The byte stream `serialize` emits for a configuration: `_nms_thresh`
(4 bytes), then `_detections_per_im` (4 bytes), then `_count` (8 bytes),
in that order, unpadded. -/
def encodeConfig (nms_thresh : Nat) (detections_per_im : Int) (count : Nat) :
    List Nat :=
  toBytes 4 nms_thresh ++ toBytes 4 (bitsOfInt32 detections_per_im) ++
    toBytes 8 count

/-- `NMSRotatePlugin::serialize`. -/
def NMSRotatePlugin.serialize (p : NMSRotatePlugin) : List Nat :=
  encodeConfig p.nms_thresh p.detections_per_im p.count

/-- `NMSRotatePlugin::getSerializationSize`:
`sizeof(_nms_thresh) + sizeof(_detections_per_im) + sizeof(_count)`. -/
def getSerializationSize : Nat := 4 + 4 + 8

/-- `NMSRotatePlugin::deserialize`: reads `_nms_thresh`, `_detections_per_im`
and `_count` from the leading bytes of the buffer; the `length` argument is
never inspected. -/
def deserializeFields (data : List Nat) (_length : Nat) : Nat × Int × Nat :=
  (fromBytes (data.take 4),
   int32OfBits (fromBytes ((data.drop 4).take 4)),
   fromBytes ((data.drop 8).take 8))

/-- `NMSRotatePlugin::NMSRotatePlugin(void const*, size_t)`: the deserializing
constructor; it calls `deserialize` and performs no validation. The member
initializer `mutable int size = -1` leaves the workspace cache unset. -/
def NMSRotatePlugin.ofBuffer (data : List Nat) (length : Nat) :
    NMSRotatePlugin :=
  let f := deserializeFields data length
  ⟨f.1, f.2.1, f.2.2, -1⟩

/-- `NMSRotatePlugin::NMSRotatePlugin(float, int)`: asserts
`nms_thresh > 0` and `detections_per_im > 0`; `_count` ends up
uninitialized (modelled by the extra `uninit_count` argument). -/
def mkNMSRotatePlugin (nms_thresh : Nat) (detections_per_im : Int)
    (uninit_count : Nat) : Option NMSRotatePlugin :=
  if floatGtZero nms_thresh ∧ 0 < detections_per_im then
    some ⟨nms_thresh, detections_per_im, uninit_count, -1⟩
  else none

/-- `NMSRotatePlugin::NMSRotatePlugin(float, int, size_t)`: asserts
`nms_thresh > 0`, `detections_per_im > 0` and `count > 0`. -/
def mkNMSRotatePluginCount (nms_thresh : Nat) (detections_per_im : Int)
    (count : Nat) : Option NMSRotatePlugin :=
  if floatGtZero nms_thresh ∧ 0 < detections_per_im ∧ 0 < count then
    some ⟨nms_thresh, detections_per_im, count, -1⟩
  else none

/-- `NMSRotatePlugin::getNbOutputs`. -/
def NMSRotatePlugin.getNbOutputs (_p : NMSRotatePlugin) : Int := 3

/-- `NMSRotatePlugin::getOutputDimensions`: asserts `nbInputDims == 3` and
`index < getNbOutputs()`, then returns
`Dims3(_detections_per_im * (index == 1 ? 6 : 1), 1, 1)`. -/
def NMSRotatePlugin.getOutputDimensions (p : NMSRotatePlugin) (index : Int)
    (nbInputDims : Int) : Option Dims3 :=
  if nbInputDims = 3 ∧ index < p.getNbOutputs then
    some ⟨p.detections_per_im * (if index = 1 then 6 else 1), 1, 1⟩
  else none

/-- `NMSRotatePlugin::supportsFormat`. -/
def NMSRotatePlugin.supportsFormat (_p : NMSRotatePlugin) (type : DataType)
    (format : PluginFormat) : Bool :=
  type == DataType.kFLOAT && format == PluginFormat.kLINEAR

/-- `NMSRotatePlugin::getOutputDataType`: asserts `index < 3`, returns
`DataType::kFLOAT`. -/
def NMSRotatePlugin.getOutputDataType (_p : NMSRotatePlugin) (index : Int) :
    Option DataType :=
  if index < 3 then some DataType.kFLOAT else none

/-- Modelled from the spec: the workspace-sizing code path of
`cuda::nms_rotate` (`src/csrc/cuda/nms_iou.h`, not among the visible
sources). §4.5: `required_workspace(batch_size, count, detections_per_im)
-> bytes`, sufficient for every intermediate the real pass allocates —
per-image rank buffers (`count` 4-byte indices), per-image score scratch
(`count` 4-byte floats), the per-image kept buffer (`detections_per_im`
4-byte entries) and a 4-byte kept-count counter. -/
def required_workspace (batch_size count detections_per_im : Nat) : Nat :=
  batch_size * (4 * count + 4 * count + 4 * detections_per_im + 4)

/-- `NMSRotatePlugin::getWorkspaceSize`: on the first query (`size < 0`) runs
the sizing path of `cuda::nms_rotate` with the query's batch size and caches
the result in the mutable `size` member; afterwards returns the cached value.
Returns the (possibly updated) plugin state together with the size. -/
def NMSRotatePlugin.getWorkspaceSize (p : NMSRotatePlugin)
    (maxBatchSize : Nat) : NMSRotatePlugin × Nat :=
  if p.size < 0 then
    let s := required_workspace maxBatchSize p.count p.detections_per_im.toNat
    ({ p with size := (s : Int) }, s)
  else (p, p.size.toNat)

/-- `NMSRotatePlugin::configurePlugin`: asserts
`*inputTypes == kFLOAT && floatFormat == kLINEAR` (only the first input's
type is read), `nbInputs == 3`, `inputDims[0].d[0] == inputDims[2].d[0]`,
`inputDims[1].d[0] == inputDims[2].d[0] * 6`, then sets
`_count = inputDims[0].d[0]` (an `int` converted to `size_t`, i.e. modulo
`2^64`). -/
def NMSRotatePlugin.configurePlugin (p : NMSRotatePlugin)
    (inputDims : List Dims3) (nbInputs : Int) (inputTypes : List DataType)
    (floatFormat : PluginFormat) : Option NMSRotatePlugin :=
  if inputTypes.getD 0 DataType.kINT32 = DataType.kFLOAT
      ∧ floatFormat = PluginFormat.kLINEAR
      ∧ nbInputs = 3
      ∧ (inputDims.getD 0 ⟨0, 0, 0⟩).d0 = (inputDims.getD 2 ⟨0, 0, 0⟩).d0
      ∧ (inputDims.getD 1 ⟨0, 0, 0⟩).d0 = (inputDims.getD 2 ⟨0, 0, 0⟩).d0 * 6
  then some { p with count := ((inputDims.getD 0 ⟨0, 0, 0⟩).d0 % (2 ^ 64 : Int)).toNat }
  else none

/-- `NMSRotatePlugin::clone`:
`new NMSRotatePlugin(_nms_thresh, _detections_per_im, _count)` — the
three-argument constructor, whose member initializer resets the cached
workspace size to `-1`. -/
def NMSRotatePlugin.clone (p : NMSRotatePlugin) : Option NMSRotatePlugin :=
  mkNMSRotatePluginCount p.nms_thresh p.detections_per_im p.count

/-! ### The suppression pass (modelled from the spec)

`cuda::nms_rotate`'s execution path is not among the visible sources; the
ranking, greedy suppression and batching below are modelled from spec
§4.2–§4.4. The rotated-IoU geometry primitive (§4.1) is kept abstract as a
function argument `overlap`; §4.1 defines it as intersection-area over
union-area of the two rectangles, which is symmetric in its arguments, so
theorems assume symmetry as a hypothesis. Scores and overlaps are rationals. -/

/-- A rotated rectangle: two center coordinates, width, height, rotation
angle, and the auxiliary sixth field the engine treats opaquely (§3). -/
structure RotatedBox where
  x : ℚ
  y : ℚ
  w : ℚ
  h : ℚ
  ang : ℚ
  aux : ℚ
deriving DecidableEq, Repr

/-- The all-zero box, used as the out-of-range default for indexed access. -/
def dummyBox : RotatedBox := ⟨0, 0, 0, 0, 0, 0⟩

/-- One image's candidate set: parallel `scores`, `boxes` and `classes`
arrays (§3); suppression is class-agnostic, so `classes` is carried but
never read by the pass. -/
structure ImageCandidates where
  scores : List ℚ
  boxes : List RotatedBox
  classes : List Int
deriving DecidableEq, Repr

/-- Modelled from the spec (§4.2): insert index `i` into an already-ranked
list — `i` goes before the first index `j` it outranks, where `i` outranks
`j` iff `score i > score j`, or the scores tie and `i < j`. -/
def rankInsert (scores : List ℚ) (i : Nat) : List Nat → List Nat
  | [] => [i]
  | j :: rest =>
    if scores.getD j 0 < scores.getD i 0 ∨
        (scores.getD i 0 = scores.getD j 0 ∧ i < j) then
      i :: j :: rest
    else
      j :: rankInsert scores i rest

/-- Modelled from the spec (§4.2): the candidate ranker — the permutation of
`0, …, count-1` sorted by score descending, ties broken by original index
ascending. -/
def rank (scores : List ℚ) : List Nat :=
  (List.range scores.length).foldr (rankInsert scores) []

/-- Modelled from the spec (§4.3): the greedy suppression loop. Walks the
ranked `order`; `kept` holds the already-kept indices newest-first. Once
`detections_per_im` indices are kept the remaining candidates are skipped;
otherwise a candidate is kept iff its overlap with every kept detection is
at most `thresh`. -/
def suppressGo (overlap : RotatedBox → RotatedBox → ℚ) (thresh : ℚ)
    (detections_per_im : Nat) (boxes : List RotatedBox) :
    List Nat → List Nat → List Nat
  | [], kept => kept
  | c :: rest, kept =>
    if detections_per_im ≤ kept.length then kept
    else if kept.all fun k =>
        decide (overlap (boxes.getD c dummyBox) (boxes.getD k dummyBox) ≤ thresh) then
      suppressGo overlap thresh detections_per_im boxes rest (c :: kept)
    else
      suppressGo overlap thresh detections_per_im boxes rest kept

/-- Modelled from the spec (§4.2–§4.3): one image's suppression pass — rank
the candidates, then greedily select; the kept indices are returned in the
order they were kept (descending score). -/
def nmsImage (overlap : RotatedBox → RotatedBox → ℚ) (thresh : ℚ)
    (detections_per_im : Nat) (im : ImageCandidates) : List Nat :=
  (suppressGo overlap thresh detections_per_im im.boxes (rank im.scores) []).reverse

/-- Modelled from the spec (§4.4): the batch dispatcher — one independent
suppression pass per image. -/
def nmsBatch (overlap : RotatedBox → RotatedBox → ℚ) (thresh : ℚ)
    (detections_per_im : Nat) (batch : List ImageCandidates) :
    List (List Nat) :=
  batch.map (nmsImage overlap thresh detections_per_im)

/-! ### Helper lemmas: byte encoding round-trips -/

theorem toBytes_length (w v : Nat) : (toBytes w v).length = w := by
  induction w generalizing v with
  | zero => rfl
  | succ w ih => simp [toBytes, ih]

theorem fromBytes_toBytes (w v : Nat) (h : v < 256 ^ w) :
    fromBytes (toBytes w v) = v := by
  induction w generalizing v with
  | zero =>
    interval_cases v
    rfl
  | succ w ih =>
    have hdiv : v / 256 < 256 ^ w := by
      rw [Nat.div_lt_iff_lt_mul (by norm_num)]
      calc v < 256 ^ (w + 1) := h
        _ = 256 ^ w * 256 := by ring
    simp only [toBytes, fromBytes, ih _ hdiv]
    omega

theorem int32_roundtrip (d : Int) (h1 : -(2 ^ 31) ≤ d) (h2 : d < 2 ^ 31) :
    int32OfBits (bitsOfInt32 d) = d := by
  unfold int32OfBits bitsOfInt32
  have hmod : 0 ≤ d % 2 ^ 32 := Int.emod_nonneg d (by norm_num)
  have hmod2 : d % 2 ^ 32 < 2 ^ 32 := Int.emod_lt_of_pos d (by norm_num)
  have hchar : d % 2 ^ 32 = d - 2 ^ 32 * (d / 2 ^ 32) := Int.emod_def d _
  omega

theorem bitsOfInt32_lt (d : Int) : bitsOfInt32 d < 2 ^ 32 := by
  unfold bitsOfInt32
  have hmod : 0 ≤ d % 2 ^ 32 := Int.emod_nonneg d (by norm_num)
  have hmod2 : d % 2 ^ 32 < 2 ^ 32 := Int.emod_lt_of_pos d (by norm_num)
  omega

/-- Decoding the encoded configuration recovers the three fields, whatever
the `length` argument handed to the deserializing constructor. -/
theorem deserializeFields_encodeConfig (t : Nat) (d : Int) (c : Nat)
    (len : Nat) (ht : t < 2 ^ 32) (hd1 : -(2 ^ 31) ≤ d) (hd2 : d < 2 ^ 31)
    (hc : c < 2 ^ 64) :
    deserializeFields (encodeConfig t d c) len = (t, d, c) := by
  have h256_4 : (256 : Nat) ^ 4 = 2 ^ 32 := by norm_num
  have h256_8 : (256 : Nat) ^ 8 = 2 ^ 64 := by norm_num
  have htake4 : (encodeConfig t d c).take 4 = toBytes 4 t := by
    unfold encodeConfig
    rw [List.append_assoc, List.take_append_of_le_length (by simp [toBytes_length])]
    simp [List.take_of_length_le, toBytes_length]
  have hdrop4 : (encodeConfig t d c).drop 4 =
      toBytes 4 (bitsOfInt32 d) ++ toBytes 8 c := by
    unfold encodeConfig
    rw [List.append_assoc, List.drop_append_of_le_length (by simp [toBytes_length])]
    simp [toBytes_length]
  have hdrop8 : (encodeConfig t d c).drop 8 = toBytes 8 c := by
    have : (encodeConfig t d c).drop 8 = ((encodeConfig t d c).drop 4).drop 4 := by
      rw [List.drop_drop]
    rw [this, hdrop4,
      List.drop_append_of_le_length (by simp [toBytes_length])]
    simp [toBytes_length]
  unfold deserializeFields
  rw [htake4, hdrop4, hdrop8,
    List.take_append_of_le_length (by simp [toBytes_length]),
    List.take_of_length_le (by simp [toBytes_length]),
    List.take_of_length_le (by simp [toBytes_length]),
    fromBytes_toBytes 4 t (by rw [h256_4]; exact ht),
    fromBytes_toBytes 4 (bitsOfInt32 d) (by rw [h256_4]; exact bitsOfInt32_lt d),
    fromBytes_toBytes 8 c (by rw [h256_8]; exact hc),
    int32_roundtrip d hd1 hd2]

/-- Invariant of the greedy loop: if the accumulator is pairwise
overlap-bounded (each entry against every entry kept before it), so is the
loop's result — a candidate is only added after `kept.all` checks it against
every already-kept index. -/
theorem suppressGo_pairwise (overlap : RotatedBox → RotatedBox → ℚ)
    (thresh : ℚ) (detections_per_im : Nat) (boxes : List RotatedBox)
    (order : List Nat) :
    ∀ kept : List Nat,
      kept.Pairwise (fun i j =>
        overlap (boxes.getD i dummyBox) (boxes.getD j dummyBox) ≤ thresh) →
      (suppressGo overlap thresh detections_per_im boxes order kept).Pairwise
        (fun i j =>
          overlap (boxes.getD i dummyBox) (boxes.getD j dummyBox) ≤ thresh) := by
  induction order with
  | nil => intro kept h; exact h
  | cons c rest ih =>
    intro kept h
    rw [suppressGo]
    split
    · exact h
    · split
      · rename_i hall
        apply ih
        refine List.Pairwise.cons ?_ h
        intro k hk
        exact of_decide_eq_true (List.all_eq_true.mp hall k hk)
      · exact ih kept h

/-! ### Claim theorems -/

/-- C4: for every image in a batch processed by one suppression pass, and
for every pair of distinct kept detections in that image's output, the
rotated IoU (any symmetric overlap measure, which rotated IoU is) of the
two detections is at most `nms_thresh`. -/
theorem c4_kept_pairs_below_thresh (overlap : RotatedBox → RotatedBox → ℚ)
    (thresh : ℚ) (detections_per_im : Nat) (batch : List ImageCandidates)
    (hsym : ∀ a b, overlap a b = overlap b a)
    (k i j : Nat) (hk : k < batch.length)
    (hi : i ∈ (nmsBatch overlap thresh detections_per_im batch).getD k [])
    (hj : j ∈ (nmsBatch overlap thresh detections_per_im batch).getD k [])
    (hij : i ≠ j) :
    overlap ((batch.getD k ⟨[], [], []⟩).boxes.getD i dummyBox)
      ((batch.getD k ⟨[], [], []⟩).boxes.getD j dummyBox) ≤ thresh := by
  have hk2 : k < (nmsBatch overlap thresh detections_per_im batch).length := by
    simpa [nmsBatch] using hk
  have hmap : (nmsBatch overlap thresh detections_per_im batch).getD k [] =
      nmsImage overlap thresh detections_per_im (batch.getD k ⟨[], [], []⟩) := by
    rw [List.getD_eq_getElem _ _ hk2, List.getD_eq_getElem _ _ hk]
    simp [nmsBatch]
  rw [hmap] at hi hj
  set im := batch.getD k ⟨[], [], []⟩ with him
  have hpw := suppressGo_pairwise overlap thresh detections_per_im im.boxes
    (rank im.scores) [] List.Pairwise.nil
  have hsymR : Symmetric (fun i j : Nat =>
      overlap (im.boxes.getD i dummyBox) (im.boxes.getD j dummyBox) ≤ thresh) := by
    intro a b hab
    rw [hsym]
    exact hab
  have hpwrev : (nmsImage overlap thresh detections_per_im im).Pairwise
      (fun i j =>
        overlap (im.boxes.getD i dummyBox) (im.boxes.getD j dummyBox) ≤ thresh) := by
    unfold nmsImage
    rw [List.pairwise_reverse]
    exact hpw.imp fun hab => hsymR hab
  exact hpwrev.forall hsymR hi hj hij

/-- A concrete symmetric overlap measure, used to instantiate the C4 witness below. -/
def zeroOverlap : RotatedBox → RotatedBox → ℚ := fun _ _ => 0

/-- A concrete two-candidate image, used to instantiate the C4 witness below. -/
def witnessImage : ImageCandidates :=
  ⟨[(9 : ℚ), (5 : ℚ)], [⟨0, 0, 2, 1, 0, 0⟩, ⟨5, 5, 2, 1, 1, 0⟩], [0, 1]⟩

/-- Witness for C4 at a concrete batch: a one-image batch with two
non-overlapping candidates keeps both, and their overlap is below the
threshold. -/
theorem c4_kept_pairs_below_thresh_witness :
    zeroOverlap (witnessImage.boxes.getD 0 dummyBox)
      (witnessImage.boxes.getD 1 dummyBox) ≤ 1 :=
  c4_kept_pairs_below_thresh zeroOverlap 1 2 [witnessImage] (fun _ _ => rfl)
    0 0 1 (by decide) (by decide) (by decide) (by decide)

/-- C3: `serialize` writes exactly `getSerializationSize()` bytes — the
fixed-order, fixed-width, unpadded concatenation of `nms_thresh` (4-byte
float), `detections_per_im` (4-byte native int), `count` (8-byte native
size integer) — and deserializing that buffer yields a plugin whose
`nms_thresh`, `detections_per_im` and `count` equal the original's. -/
theorem c3_serialize_roundtrip (p : NMSRotatePlugin) (len : Nat)
    (ht : p.nms_thresh < 2 ^ 32) (hd1 : -(2 ^ 31) ≤ p.detections_per_im)
    (hd2 : p.detections_per_im < 2 ^ 31) (hc : p.count < 2 ^ 64) :
    p.serialize.length = getSerializationSize
    ∧ p.serialize = toBytes 4 p.nms_thresh
        ++ toBytes 4 (bitsOfInt32 p.detections_per_im) ++ toBytes 8 p.count
    ∧ (NMSRotatePlugin.ofBuffer p.serialize len).nms_thresh = p.nms_thresh
    ∧ (NMSRotatePlugin.ofBuffer p.serialize len).detections_per_im
        = p.detections_per_im
    ∧ (NMSRotatePlugin.ofBuffer p.serialize len).count = p.count := by
  have hfields := deserializeFields_encodeConfig p.nms_thresh
    p.detections_per_im p.count len ht hd1 hd2 hc
  refine ⟨?_, rfl, ?_, ?_, ?_⟩
  · simp [NMSRotatePlugin.serialize, encodeConfig, getSerializationSize,
      toBytes_length]
  all_goals
    simp [NMSRotatePlugin.ofBuffer, NMSRotatePlugin.serialize, hfields]

/-- Witness for C3 at a concrete plugin (`nms_thresh` bits of `1.0f`,
`detections_per_im = 100`, `count = 500`). -/
theorem c3_serialize_roundtrip_witness :
    (NMSRotatePlugin.ofBuffer
      ((⟨0x3F800000, 100, 500, -1⟩ : NMSRotatePlugin).serialize) 16).count
      = 500 :=
  (c3_serialize_roundtrip ⟨0x3F800000, 100, 500, -1⟩ 16 (by decide)
    (by decide) (by decide) (by decide)).2.2.2.2

/-- C9: the result of the deserializing constructor depends only on the
first `sizeof(float) + sizeof(int) + sizeof(size_t) = 16` bytes of the
buffer; the `length` argument is never inspected. -/
theorem c9_deserialize_reads_leading_bytes (b1 b2 : List Nat) (l1 l2 : Nat)
    (h : b1.take 16 = b2.take 16) :
    NMSRotatePlugin.ofBuffer b1 l1 = NMSRotatePlugin.ofBuffer b2 l2 := by
  have h4 : b1.take 4 = b2.take 4 := by
    have e : ∀ b : List Nat, b.take 4 = (b.take 16).take 4 := by
      intro b
      rw [List.take_take]
      norm_num
    rw [e b1, e b2, h]
  have hmid : (b1.drop 4).take 4 = (b2.drop 4).take 4 := by
    have e : ∀ b : List Nat, (b.drop 4).take 4 = ((b.take 16).drop 4).take 4 := by
      intro b
      rw [List.drop_take, List.take_take]
      norm_num
    rw [e b1, e b2, h]
  have hhigh : (b1.drop 8).take 8 = (b2.drop 8).take 8 := by
    have e : ∀ b : List Nat, (b.drop 8).take 8 = (b.take 16).drop 8 := by
      intro b
      rw [List.drop_take]
    rw [e b1, e b2, h]
  unfold NMSRotatePlugin.ofBuffer deserializeFields
  rw [h4, hmid, hhigh]

/-- Witness for C9: a 17-byte buffer and its 16-byte prefix, under
different `length` arguments, deserialize identically. -/
theorem c9_deserialize_reads_leading_bytes_witness :
    NMSRotatePlugin.ofBuffer (List.range 16 ++ [255]) 17 =
      NMSRotatePlugin.ofBuffer (List.range 16) 3 :=
  c9_deserialize_reads_leading_bytes (List.range 16 ++ [255]) (List.range 16)
    17 3 (by decide)

/-- C2 counterexample: deserializing a buffer that encodes
`nms_thresh = -1.0f` (bit pattern `0xBF800000`) succeeds and yields a
usable plugin whose configuration is invalid — the deserializing
construction path performs no validation, refuting the claim that every
construction path rejects an invalid configuration. -/
theorem c2_counterexample :
    (NMSRotatePlugin.ofBuffer (encodeConfig 0xBF800000 100 10) 16).nms_thresh
        = 0xBF800000
    ∧ floatGtZero
        (NMSRotatePlugin.ofBuffer
          (encodeConfig 0xBF800000 100 10) 16).nms_thresh = false := by
  decide

/-- C2 (amended): the two parameter constructors reject an invalid
configuration at construction time (`nms_thresh ≤ 0`,
`detections_per_im ≤ 0`, or — when a count is supplied — `count ≤ 0`),
but the deserializing constructor performs no validation: any encoded
configuration, valid or not, deserializes to a usable plugin carrying
exactly those parameters. -/
theorem c2_construction_validation (t : Nat) (d : Int) (c junk len : Nat)
    (ht : t < 2 ^ 32) (hd1 : -(2 ^ 31) ≤ d) (hd2 : d < 2 ^ 31)
    (hc : c < 2 ^ 64) :
    ((mkNMSRotatePlugin t d junk).isSome ↔ (floatGtZero t ∧ 0 < d))
    ∧ ((mkNMSRotatePluginCount t d c).isSome ↔
        (floatGtZero t ∧ 0 < d ∧ 0 < c))
    ∧ NMSRotatePlugin.ofBuffer (encodeConfig t d c) len = ⟨t, d, c, -1⟩ := by
  refine ⟨?_, ?_, ?_⟩
  · unfold mkNMSRotatePlugin
    split <;> simp_all
  · unfold mkNMSRotatePluginCount
    split <;> simp_all
  · simp [NMSRotatePlugin.ofBuffer,
      deserializeFields_encodeConfig t d c len ht hd1 hd2 hc]

/-- Witness for C2 (amended) at a concrete valid configuration and at a
concrete invalid deserialized configuration. -/
theorem c2_construction_validation_witness :
    (mkNMSRotatePluginCount 0x3F800000 100 10).isSome
    ∧ NMSRotatePlugin.ofBuffer (encodeConfig 0xBF800000 100 10) 16
        = ⟨0xBF800000, 100, 10, -1⟩ :=
  ⟨((c2_construction_validation 0x3F800000 100 10 0 0 (by decide) (by decide)
      (by decide) (by decide)).2.1).mpr (by decide),
   (c2_construction_validation 0xBF800000 100 10 0 16 (by decide) (by decide)
      (by decide) (by decide)).2.2⟩

/-- C5 counterexample: `configurePlugin` accepts a configuration whose
second and third inputs are declared half-precision — only the first entry
of `inputTypes` is ever read — refuting the claim that acceptance requires
all three inputs to be single-precision float. -/
theorem c5_counterexample :
    (NMSRotatePlugin.configurePlugin ⟨0x3F800000, 100, 1, -1⟩
        [⟨2, 1, 1⟩, ⟨12, 1, 1⟩, ⟨2, 1, 1⟩] 3
        [DataType.kFLOAT, DataType.kHALF, DataType.kHALF]
        PluginFormat.kLINEAR).isSome = true
    ∧ [DataType.kFLOAT, DataType.kHALF, DataType.kHALF].getD 1 DataType.kFLOAT
        ≠ DataType.kFLOAT := by
  decide

/-- C5 (amended): `configurePlugin` accepts exactly when the FIRST input's
declared type is single-precision float, the layout is the dense linear
format, there are three inputs, the scores and classes arrays have equal
leading length, and the boxes array's leading length is 6 times that of
classes; on success the plugin's `count` is set to the scores array length
(as converted to `size_t`), with the other fields unchanged. -/
theorem c5_configure_accepts_iff (p : NMSRotatePlugin)
    (inputDims : List Dims3) (nbInputs : Int) (inputTypes : List DataType)
    (fmt : PluginFormat) :
    ((p.configurePlugin inputDims nbInputs inputTypes fmt).isSome ↔
      (inputTypes.getD 0 DataType.kINT32 = DataType.kFLOAT
        ∧ fmt = PluginFormat.kLINEAR ∧ nbInputs = 3
        ∧ (inputDims.getD 0 ⟨0, 0, 0⟩).d0 = (inputDims.getD 2 ⟨0, 0, 0⟩).d0
        ∧ (inputDims.getD 1 ⟨0, 0, 0⟩).d0
            = (inputDims.getD 2 ⟨0, 0, 0⟩).d0 * 6))
    ∧ ∀ q, p.configurePlugin inputDims nbInputs inputTypes fmt = some q →
        q.count = ((inputDims.getD 0 ⟨0, 0, 0⟩).d0 % (2 ^ 64 : Int)).toNat
        ∧ q.nms_thresh = p.nms_thresh
        ∧ q.detections_per_im = p.detections_per_im := by
  constructor
  · unfold NMSRotatePlugin.configurePlugin
    split <;> simp_all
  · intro q hq
    unfold NMSRotatePlugin.configurePlugin at hq
    split at hq
    · injection hq with hq2
      subst hq2
      exact ⟨rfl, rfl, rfl⟩
    · cases hq

/-- Witness for C5 (amended): a concrete accepted configuration and the
`count` field it produces. -/
theorem c5_configure_accepts_iff_witness :
    ((⟨0x3F800000, 100, 7, -1⟩ : NMSRotatePlugin).configurePlugin
        [⟨2, 1, 1⟩, ⟨12, 1, 1⟩, ⟨2, 1, 1⟩] 3
        [DataType.kFLOAT, DataType.kFLOAT, DataType.kFLOAT]
        PluginFormat.kLINEAR).isSome
    ∧ (⟨0x3F800000, 100, 2, -1⟩ : NMSRotatePlugin).count
        = ((([⟨2, 1, 1⟩, ⟨12, 1, 1⟩, ⟨2, 1, 1⟩] : List Dims3).getD 0
            ⟨0, 0, 0⟩).d0 % (2 ^ 64 : Int)).toNat :=
  ⟨(c5_configure_accepts_iff ⟨0x3F800000, 100, 7, -1⟩
      [⟨2, 1, 1⟩, ⟨12, 1, 1⟩, ⟨2, 1, 1⟩] 3
      [DataType.kFLOAT, DataType.kFLOAT, DataType.kFLOAT]
      PluginFormat.kLINEAR).1.mpr (by decide),
   ((c5_configure_accepts_iff ⟨0x3F800000, 100, 7, -1⟩
      [⟨2, 1, 1⟩, ⟨12, 1, 1⟩, ⟨2, 1, 1⟩] 3
      [DataType.kFLOAT, DataType.kFLOAT, DataType.kFLOAT]
      PluginFormat.kLINEAR).2 ⟨0x3F800000, 100, 2, -1⟩ (by decide)).1⟩

/-- C6: the plugin declares exactly three outputs; for a valid output
index, output 1 (the boxes output) has `detections_per_im * 6` leading
elements, the other two outputs have `detections_per_im` each, and every
output's declared data type is single-precision float. -/
theorem c6_output_layout (p : NMSRotatePlugin) (index : Int)
    (_h0 : 0 ≤ index) (h3 : index < 3) :
    p.getNbOutputs = 3
    ∧ p.getOutputDimensions 1 3 = some ⟨p.detections_per_im * 6, 1, 1⟩
    ∧ (index ≠ 1 →
        p.getOutputDimensions index 3 = some ⟨p.detections_per_im, 1, 1⟩)
    ∧ p.getOutputDataType index = some DataType.kFLOAT := by
  refine ⟨rfl, ?_, ?_, ?_⟩
  · simp [NMSRotatePlugin.getOutputDimensions, NMSRotatePlugin.getNbOutputs]
  · intro hne
    simp [NMSRotatePlugin.getOutputDimensions, NMSRotatePlugin.getNbOutputs,
      h3, hne]
  · simp [NMSRotatePlugin.getOutputDataType, h3]

/-- Witness for C6 at output index 0 of a concrete plugin. -/
theorem c6_output_layout_witness :
    (⟨0x3F800000, 100, 7, -1⟩ : NMSRotatePlugin).getNbOutputs = 3
    ∧ (⟨0x3F800000, 100, 7, -1⟩ : NMSRotatePlugin).getOutputDimensions 1 3
        = some ⟨100 * 6, 1, 1⟩
    ∧ ((0 : Int) ≠ 1 →
        (⟨0x3F800000, 100, 7, -1⟩ : NMSRotatePlugin).getOutputDimensions 0 3
          = some ⟨100, 1, 1⟩)
    ∧ (⟨0x3F800000, 100, 7, -1⟩ : NMSRotatePlugin).getOutputDataType 0
        = some DataType.kFLOAT :=
  c6_output_layout ⟨0x3F800000, 100, 7, -1⟩ 0 (by decide) (by decide)

/-- C7: `supportsFormat` returns true if and only if the proposed data type
is single-precision float and the proposed layout is the dense linear
format. -/
theorem c7_supportsFormat_iff (p : NMSRotatePlugin) (t : DataType)
    (f : PluginFormat) :
    p.supportsFormat t f = true ↔
      (t = DataType.kFLOAT ∧ f = PluginFormat.kLINEAR) := by
  unfold NMSRotatePlugin.supportsFormat
  simp

/-- C1 counterexample: with the cache unset, a query at batch size 1
computes and caches the batch-size-1 value; a later query at batch size 2
returns that cached value, not the size the sizing code path computes for
batch size 2 — refuting the claim that queries at different batch sizes
each return the size appropriate to their own batch size. -/
theorem c1_counterexample :
    (((⟨0x3F800000, 10, 50, -1⟩ : NMSRotatePlugin).getWorkspaceSize 1).1.getWorkspaceSize 2).2
      ≠ required_workspace 2 50 10 := by
  decide

/-- C1 (amended): with the cache unset, `getWorkspaceSize` returns the size
the sizing code path computes for that query's batch size (with the
configured `count` and `detections_per_im`) and caches it; every later
query returns the cached value unchanged, so repeated queries with the same
parameters always return the same size — but a later query at a different
batch size returns the first query's cached size, not a size recomputed for
its own batch size. -/
theorem c1_workspace_size_cached (p : NMSRotatePlugin) (bs bs2 : Nat)
    (h : p.size < 0) :
    (p.getWorkspaceSize bs).2
        = required_workspace bs p.count p.detections_per_im.toNat
    ∧ ((p.getWorkspaceSize bs).1.getWorkspaceSize bs2).2
        = (p.getWorkspaceSize bs).2 := by
  unfold NMSRotatePlugin.getWorkspaceSize
  rw [if_pos h]
  refine ⟨rfl, ?_⟩
  have hnn : ¬ ((required_workspace bs p.count p.detections_per_im.toNat : Int) < 0) :=
    not_lt.mpr (Int.ofNat_nonneg _)
  simp [hnn]

/-- Witness for C1 (amended) at a concrete plugin and batch sizes 3, 5. -/
theorem c1_workspace_size_cached_witness :
    ((⟨0x3F800000, 10, 50, -1⟩ : NMSRotatePlugin).getWorkspaceSize 3).2
        = required_workspace 3 50 10
    ∧ (((⟨0x3F800000, 10, 50, -1⟩ : NMSRotatePlugin).getWorkspaceSize 3).1.getWorkspaceSize 5).2
        = ((⟨0x3F800000, 10, 50, -1⟩ : NMSRotatePlugin).getWorkspaceSize 3).2 :=
  c1_workspace_size_cached ⟨0x3F800000, 10, 50, -1⟩ 3 5 (by decide)

/-- C8: once `getWorkspaceSize` has cached a size, a `configurePlugin` call
that changes `count` does not invalidate the cache: later queries return
the size computed for the OLD count, which differs from the size the sizing
path would compute for the new count. -/
theorem c8_configure_keeps_stale_cache (p q : NMSRotatePlugin) (bs : Nat)
    (inputDims : List Dims3) (nbInputs : Int) (inputTypes : List DataType)
    (fmt : PluginFormat)
    (hsize : p.size < 0) (hbs : 0 < bs)
    (hconf : (p.getWorkspaceSize bs).1.configurePlugin inputDims nbInputs
        inputTypes fmt = some q)
    (hchange : q.count ≠ p.count) :
    (q.getWorkspaceSize bs).2
        = required_workspace bs p.count p.detections_per_im.toNat
    ∧ (q.getWorkspaceSize bs).2
        ≠ required_workspace bs q.count q.detections_per_im.toNat := by
  have hp1 : (p.getWorkspaceSize bs).1 =
      { p with size :=
          (required_workspace bs p.count p.detections_per_im.toNat : Int) } := by
    unfold NMSRotatePlugin.getWorkspaceSize
    rw [if_pos hsize]
  rw [hp1] at hconf
  unfold NMSRotatePlugin.configurePlugin at hconf
  split at hconf
  · injection hconf with hq2
    subst hq2
    have hnn : ¬ ((required_workspace bs p.count p.detections_per_im.toNat : Int) < 0) :=
      not_lt.mpr (Int.ofNat_nonneg _)
    constructor
    · unfold NMSRotatePlugin.getWorkspaceSize
      rw [if_neg hnn]
      simp
    · unfold NMSRotatePlugin.getWorkspaceSize
      rw [if_neg hnn]
      dsimp only at hchange ⊢
      simp only [Int.toNat_natCast]
      unfold required_workspace
      intro heq
      have hlin := Nat.eq_of_mul_eq_mul_left hbs heq
      exact hchange (by omega)
  · cases hconf

/-- Witness for C8: a concrete plugin whose cache was filled at
`count = 50` and then reconfigured to `count = 2`. -/
theorem c8_configure_keeps_stale_cache_witness :
    ((⟨0x3F800000, 10, 2, 444⟩ : NMSRotatePlugin).getWorkspaceSize 1).2
        = required_workspace 1 50 10
    ∧ ((⟨0x3F800000, 10, 2, 444⟩ : NMSRotatePlugin).getWorkspaceSize 1).2
        ≠ required_workspace 1 2 10 :=
  c8_configure_keeps_stale_cache ⟨0x3F800000, 10, 50, -1⟩
    ⟨0x3F800000, 10, 2, 444⟩ 1 [⟨2, 1, 1⟩, ⟨12, 1, 1⟩, ⟨2, 1, 1⟩] 3
    [DataType.kFLOAT] PluginFormat.kLINEAR
    (by decide) (by decide) (by decide) (by decide)

/-- C10: `clone` produces a plugin whose `nms_thresh`,
`detections_per_im` and `count` equal the original's and whose cached
workspace size is reset to the unset state, so the clone recomputes its
workspace size (for its own first query's batch size) instead of
inheriting the original's cached value. -/
theorem c10_clone_copies_config_resets_cache (p : NMSRotatePlugin)
    (ht : floatGtZero p.nms_thresh = true) (hd : 0 < p.detections_per_im)
    (hc : 0 < p.count) :
    ∃ q, p.clone = some q ∧ q.nms_thresh = p.nms_thresh
      ∧ q.detections_per_im = p.detections_per_im ∧ q.count = p.count
      ∧ q.size = -1
      ∧ ∀ bs, (q.getWorkspaceSize bs).2
          = required_workspace bs p.count p.detections_per_im.toNat := by
  refine ⟨⟨p.nms_thresh, p.detections_per_im, p.count, -1⟩, ?_, rfl, rfl,
    rfl, rfl, ?_⟩
  · unfold NMSRotatePlugin.clone mkNMSRotatePluginCount
    rw [if_pos ⟨ht, hd, hc⟩]
  · intro bs
    unfold NMSRotatePlugin.getWorkspaceSize
    rw [if_pos (by norm_num)]

/-- Witness for C10 at a concrete plugin with a populated cache
(`size = 444`): the clone's cache is unset. -/
theorem c10_clone_copies_config_resets_cache_witness :
    ∃ q, (⟨0x3F800000, 10, 50, 444⟩ : NMSRotatePlugin).clone = some q
      ∧ q.nms_thresh = 0x3F800000 ∧ q.detections_per_im = 10 ∧ q.count = 50
      ∧ q.size = -1
      ∧ ∀ bs, (q.getWorkspaceSize bs).2 = required_workspace bs 50 10 :=
  c10_clone_copies_config_resets_cache ⟨0x3F800000, 10, 50, 444⟩
    (by decide) (by decide) (by decide)

end RetinanetNMSRotate
